import Mathlib

/-!
# Verification of the `fotos` client session/cart manager and backend glue

Shallow embedding of the repository's JavaScript source:

* `src/frontend/script.js` — in-memory state `estado`, session functions
  `guardarSesion`, `cerrarSesion`, `cargarSesionGuardada`, and the auth
  client `iniciarSesion` / `registrarUsuario`;
* `src/backend/models/imagenes.model.js` — `obtenerImagenes` (SQL query);
* the image-listing controller (`getImagenes`);
* `src/backend/routes/fotos.routes.js` (second half: the clients model) —
  `crearCliente`;
* `src/backend/initdb.js` — the `imagenes` table schema.

Modelling conventions:

* JavaScript values reaching the state or JSON bodies are modelled by
  `JSVal` (JS `undefined` is not modelled: no verified code path
  distinguishes it from `null` — both are falsy and both throw on field
  access; only the coerced storage text differs, which nothing reads back
  structurally).
* `localStorage` strings holding serialized JSON are modelled by
  `StoredStr`, classifying a string by the outcome of the JS builtin
  `JSON.parse` (external to the repository, modelled by its specification):
  `jsonOf v` stands for any string that parses to `v` (e.g. the output of
  `JSON.stringify v`; such strings are nonempty, hence truthy), and
  `notJson raw` stands for the string `raw` on which `JSON.parse` throws.
* The store is a record with one field per key actually addressed by the
  code (`"token"`, `"user"`, `"carrito"`); the key literals themselves are
  transcribed separately for the Persistence-Bridge claim.
* `console.log` is I/O and is dropped, except that a field access it
  performs on `null` throws a TypeError, which the surrounding control
  flow observes; those throws are modelled explicitly.
-/

/-- A JavaScript value, as produced by `JSON.parse` or passed to the
session functions. -/
inductive JSVal where
  | null
  | bool (b : Bool)
  | num (n : Int)
  | str (s : String)
  | obj (fields : List (String × JSVal))
  | arr (elems : List JSVal)

namespace JSVal

/-- JS truthiness of a value (`!!v`, or a value used in a condition):
`null`, `false`, `0` and `""` are falsy; objects and arrays are always
truthy. -/
def truthy : JSVal → Bool
  | .null => false
  | .bool b => b
  | .num n => n ≠ 0
  | .str s => s ≠ ""
  | .obj _ => true
  | .arr _ => true

/-- Whether the value is JS `null` (field access on it throws). -/
def isNull : JSVal → Bool
  | .null => true
  | _ => false

/-- JS property read `v.f`: `some` result for a field of an object,
`none` for JS `undefined` (missing field, or property access on a
primitive). Access on `null` throws instead; callers test `isNull`. -/
def getField : JSVal → String → Option JSVal
  | .obj fields, f => fields.lookup f
  | _, _ => none

mutual

/-- JS string coercion `String(v)` (as performed by
`localStorage.setItem` on its value argument). -/
def jsToString : JSVal → String
  | .null => "null"
  | .bool true => "true"
  | .bool false => "false"
  | .num n => toString n
  | .str s => s
  | .obj _ => "[object Object]"
  | .arr xs => jsToStringElems xs

/-- JS `Array.prototype.toString`: elements joined with `","`, a `null`
element contributing the empty string. -/
def jsToStringElems : List JSVal → String
  | [] => ""
  | [x] => if x.isNull then "" else jsToString x
  | x :: xs => (if x.isNull then "" else jsToString x) ++ "," ++ jsToStringElems xs

end

end JSVal

/-- A `localStorage` string holding (possibly) serialized JSON,
classified by the outcome of the JS builtin `JSON.parse` on it. -/
inductive StoredStr where
  | jsonOf (v : JSVal)
  | notJson (raw : String)

namespace StoredStr

/-- `JSON.parse` on the string: succeeds exactly on the `jsonOf` class. -/
def parse : StoredStr → Option JSVal
  | .jsonOf v => some v
  | .notJson _ => none

/-- JS truthiness of the underlying string: any string accepted by
`JSON.parse` is nonempty, hence truthy; an unparseable string is truthy
iff nonempty. -/
def truthy : StoredStr → Bool
  | .jsonOf _ => true
  | .notJson raw => raw ≠ ""

/-- The serialization the code stores: `JSON.stringify v` is a string
that parses back to `v`. -/
def stringify (v : JSVal) : StoredStr := .jsonOf v

end StoredStr

/-- One line of the in-memory cart, `script.js` line 6:
`{id, nombre, precio, cantidad}` (the spec calls these
itemId/name/unitPrice/quantity). Prices are integers in the model (the
spec's scenarios use integer values). -/
structure CartLine where
  id : Int
  nombre : String
  precio : Int
  cantidad : Int
deriving DecidableEq

/-- The in-memory cart, `script.js` lines 6–9: `{items: [...], total}`. -/
structure Carrito where
  items : List CartLine
  total : Int
deriving DecidableEq

/-- The global in-memory state `estado`, `script.js` lines 3–10. -/
structure Estado where
  token : JSVal
  usuario : JSVal
  carrito : Carrito

/-- The initial value of `estado` (`script.js` lines 3–10): no session,
empty cart. -/
def estadoInicial : Estado :=
  { token := .null, usuario := .null, carrito := { items := [], total := 0 } }

/-- The `localStorage` contents at the three keys the code addresses:
`"token"` (raw string), `"user"` and `"carrito"` (serialized JSON).
`none` = key absent (`getItem` returns `null`). -/
structure Store where
  token : Option String
  user : Option StoredStr
  carrito : Option StoredStr

/-- An empty `localStorage`. -/
def emptyStore : Store := { token := none, user := none, carrito := none }

/-- `guardarSesion(token, usuario)`, `script.js` lines 32–42: stores the
pair in memory and mirrors it to `localStorage`, unconditionally.
Returns the new state, the new store, and whether the trailing
`console.log("...", usuario.nombre)` throws (it does exactly when
`usuario` is `null`); the four writes happen before that line. -/
def guardarSesion (token usuario : JSVal) (e : Estado) (st : Store) :
    Estado × Store × Bool :=
  let e' := { e with token := token, usuario := usuario }
  let st' := { st with token := some token.jsToString,
                       user := some (StoredStr.stringify usuario) }
  (e', st', usuario.isNull)

/-- `cerrarSesion()`, `script.js` lines 56–69: resets the in-memory
session and cart and removes the three `localStorage` keys.
(`mostrarInterfaz()` is DOM-only and not modelled.) -/
def cerrarSesion (_e : Estado) (_st : Store) : Estado × Store :=
  ({ token := .null, usuario := .null, carrito := { items := [], total := 0 } },
   { token := none, user := none, carrito := none })

/-- `cargarSesionGuardada()`, `script.js` lines 82–98: reads the
`"token"` and `"user"` keys; if both are truthy, assigns the token, then
parses the user; a parse failure, or the TypeError thrown by
`estado.usuario.nombre` in the success log when the parsed user is
`null`, is caught and handled by `cerrarSesion()`. Otherwise the state
is left untouched. -/
def cargarSesionGuardada (e : Estado) (st : Store) : Estado × Store :=
  match st.token, st.user with
  | some tokenGuardado, some usuarioGuardado =>
    if tokenGuardado != "" && usuarioGuardado.truthy then
      match usuarioGuardado.parse with
      | some u =>
        if u.isNull then
          -- `estado.usuario.nombre` throws; catch block runs cerrarSesion
          cerrarSesion { e with token := .str tokenGuardado, usuario := u } st
        else
          ({ e with token := .str tokenGuardado, usuario := u }, st)
      | none =>
        -- JSON.parse threw after `estado.token` was assigned
        cerrarSesion { e with token := .str tokenGuardado } st
    else
      (e, st)
  | _, _ => (e, st)

/-- Outcome of `await respuesta.json()`: either a parsed JSON body, or a
rejection (body not valid JSON), which the surrounding `try` catches. -/
inductive BodyResult where
  | json (v : JSVal)
  | notJson

/-- Outcome of a `fetch` in the auth client: a network failure (the
promise rejects), or a response with `respuesta.ok` (status in 200–299)
and a body. -/
inductive HttpResult where
  | netError
  | resp (ok : Bool) (body : BodyResult)

/-- `datos.usuario.nombre` interpolated into the welcome alert: the JS
template renders a missing field (`undefined`) as the text
`"undefined"`. -/
def fieldText (v : JSVal) (f : String) : String :=
  match v.getField f with
  | some w => w.jsToString
  | none => "undefined"

/-- `iniciarSesion(email, password)`, `script.js` lines 111–136, as a
function of the HTTP outcome (the request itself is external). Returns
the state, the store, and the alert shown, if any. On `respuesta.ok` it
runs `guardarSesion(datos.token, datos.usuario)` and alerts a welcome;
otherwise it alerts `datos.message || "Error al iniciar sesión"`. Any
throw (non-JSON body, field access on a `null` body, the TypeError
inside `guardarSesion`'s log) reaches the outer catch, which alerts
`"No se pudo conectar con el servidor"`. -/
def iniciarSesion (e : Estado) (st : Store) (r : HttpResult) :
    Estado × Store × Option JSVal :=
  match r with
  | .netError => (e, st, some (.str "No se pudo conectar con el servidor"))
  | .resp _ .notJson => (e, st, some (.str "No se pudo conectar con el servidor"))
  | .resp ok (.json datos) =>
    if ok then
      if datos.isNull then
        -- `datos.token` throws on null; caught before any mutation
        (e, st, some (.str "No se pudo conectar con el servidor"))
      else
        let tok := (datos.getField "token").getD .null
        let usr := (datos.getField "usuario").getD .null
        match guardarSesion tok usr e st with
        | (e', st', thrown) =>
          if thrown then
            (e', st', some (.str "No se pudo conectar con el servidor"))
          else
            (e', st', some (.str ("Bienvenido, " ++ fieldText usr "nombre")))
    else
      if datos.isNull then
        -- `datos.message` throws on null; caught
        (e, st, some (.str "No se pudo conectar con el servidor"))
      else
        let m := (datos.getField "message").getD .null
        (e, st, some (if m.truthy then m else .str "Error al iniciar sesión"))

/-- `registrarUsuario(nombre, email, password)`, `script.js` lines
150–174: identical control flow to `iniciarSesion`, with the fallback
message `"Error al registrarse"` and a `"Cuenta creada. "` welcome. -/
def registrarUsuario (e : Estado) (st : Store) (r : HttpResult) :
    Estado × Store × Option JSVal :=
  match r with
  | .netError => (e, st, some (.str "No se pudo conectar con el servidor"))
  | .resp _ .notJson => (e, st, some (.str "No se pudo conectar con el servidor"))
  | .resp ok (.json datos) =>
    if ok then
      if datos.isNull then
        (e, st, some (.str "No se pudo conectar con el servidor"))
      else
        let tok := (datos.getField "token").getD .null
        let usr := (datos.getField "usuario").getD .null
        match guardarSesion tok usr e st with
        | (e', st', thrown) =>
          if thrown then
            (e', st', some (.str "No se pudo conectar con el servidor"))
          else
            (e', st', some (.str ("Cuenta creada. Bienvenido, " ++ fieldText usr "nombre")))
    else
      if datos.isNull then
        (e, st, some (.str "No se pudo conectar con el servidor"))
      else
        let m := (datos.getField "message").getD .null
        (e, st, some (if m.truthy then m else .str "Error al registrarse"))

/-- The `localStorage` keys written by `guardarSesion`
(`script.js` lines 38–39). -/
def guardarSesionKeys : List String := ["token", "user"]

/-- The `localStorage` keys removed by `cerrarSesion`
(`script.js` lines 63–65). -/
def cerrarSesionKeys : List String := ["token", "user", "carrito"]

/-- The `localStorage` keys read by `cargarSesionGuardada`
(`script.js` lines 83–84). -/
def cargarSesionGuardadaKeys : List String := ["token", "user"]

/-- The key names the spec ascribes to the Persistence Bridge (spec §6:
token, user, cart). Stated from the spec's words, to be compared with
the literals transcribed from the code. -/
def specBridgeKeys : List String := ["token", "user", "cart"]

/-- The keys the code actually addresses: union of the reads, writes and
removals above. -/
def codeBridgeKeys : List String := ["token", "user", "carrito"]

/-- Sum of `precio × cantidad` over the cart lines (the derived total,
spec §4.3: recomputed from scratch after every mutation). -/
def cartTotal (items : List CartLine) : Int :=
  (items.map (fun l => l.precio * l.cantidad)).sum

/-- A catalog item as passed to `addItem`: `{itemId, name, unitPrice}`
in the spec's vocabulary, i.e. `{id, nombre, precio}` in the state's. -/
structure ItemInfo where
  id : Int
  nombre : String
  precio : Int
deriving DecidableEq

/-- Modelled from the spec: `addItem(item, quantity)` (spec §4.3) — the
Cart Manager's mutation code is not under `src/`; only its state shape
(`script.js` line 6) and the `"carrito"` removal in `cerrarSesion` are.
If a line with the same itemId exists, increments its quantity by the
given quantity; otherwise appends a new line; the total is recomputed
from scratch. (Persistence of the snapshot is not modelled here; no
claim reads the persisted cart back.) -/
def addItem (c : Carrito) (item : ItemInfo) (quantity : Int) : Carrito :=
  let items :=
    if c.items.any (fun l => l.id == item.id) then
      c.items.map (fun l =>
        if l.id == item.id then { l with cantidad := l.cantidad + quantity } else l)
    else
      c.items ++ [{ id := item.id, nombre := item.nombre, precio := item.precio,
                    cantidad := quantity }]
  { items := items, total := cartTotal items }

/-- Modelled from the spec: `removeItem(itemId)` (spec §4.3): deletes
the matching line if present (no-op if absent), recomputes the total. -/
def removeItem (c : Carrito) (itemId : Int) : Carrito :=
  let items := c.items.filter (fun l => l.id != itemId)
  { items := items, total := cartTotal items }

/-- A cart mutation, for stating the invariant over arbitrary
`addItem`/`removeItem` sequences. -/
inductive CartOp where
  | add (item : ItemInfo) (quantity : Int)
  | remove (itemId : Int)

/-- Apply a sequence of cart mutations in order. -/
def applyCartOps (ops : List CartOp) (c : Carrito) : Carrito :=
  match ops with
  | [] => c
  | .add item q :: rest => applyCartOps rest (addItem c item q)
  | .remove i :: rest => applyCartOps rest (removeItem c i)

/-- A row of the `imagenes` table as defined by `initdb.js` lines
129–139 (`titulo`, not `nombre`; `precio DECIMAL(10,2)` is modelled in
cents; `creado_en` as an integer timestamp). -/
structure ImagenRow where
  id : Int
  titulo : String
  descripcion : String
  precio : Int
  stock : Int
  categoria : String
  categoria_id : Option Int
  ruta_imagen : String
  activo : Bool
  creado_en : Int
deriving DecidableEq

/-- The column names of the `imagenes` table, transcribed from the
`CREATE TABLE` statement in `initdb.js` lines 129–139. -/
def imagenesTableCols : List String :=
  ["id", "titulo", "descripcion", "precio", "stock", "categoria",
   "categoria_id", "ruta_imagen", "activo", "creado_en"]

/-- The column named in the `ORDER BY` clause of the query in
`imagenes.model.js` line 8: `ORDER BY nombre ASC`. -/
def obtenerImagenesOrderBy : String := "nombre"

/-- Resolve an `ORDER BY` column name against the `imagenes` table,
yielding a string sort key per row. MySQL raises
`ER_BAD_FIELD_ERROR` (Unknown column in order clause) when the name is
not a column of the table. -/
def resolveOrderCol (col : String) : Option (ImagenRow → String) :=
  if col = "id" then some (fun r => toString r.id)
  else if col = "titulo" then some (fun r => r.titulo)
  else if col = "descripcion" then some (fun r => r.descripcion)
  else if col = "precio" then some (fun r => toString r.precio)
  else if col = "stock" then some (fun r => toString r.stock)
  else if col = "categoria" then some (fun r => r.categoria)
  else if col = "categoria_id" then some (fun r => toString (r.categoria_id.getD 0))
  else if col = "ruta_imagen" then some (fun r => r.ruta_imagen)
  else if col = "activo" then some (fun r => toString r.activo)
  else if col = "creado_en" then some (fun r => toString r.creado_en)
  else none

/-- `obtenerImagenes()`, `imagenes.model.js` lines 3–11: runs
`SELECT ... FROM fotos.imagenes WHERE activo = 1 ORDER BY nombre ASC`
against the table state. The `WHERE` keeps active rows; the `ORDER BY`
references the column `nombre`, which the table does not define, so the
query errors. -/
def obtenerImagenes (db : List ImagenRow) : Except String (List ImagenRow) :=
  match resolveOrderCol obtenerImagenesOrderBy with
  | none => .error "ER_BAD_FIELD_ERROR: Unknown column nombre in order clause"
  | some key => .ok ((db.filter (fun r => r.activo)).mergeSort (fun a b => key a ≤ key b))

/-- The HTTP response of the image-listing controller. -/
structure ListResponse where
  status : Nat
  success : Bool
  message : String
  data : List ImagenRow
  error : Option String
deriving DecidableEq

/-- `getImagenes(req, res)`, the images controller (`src/unnamed/part_000`
lines 9–29): on success of the model query, 200 with
`{success, message, data}`; on a thrown error, 500 with
`{success: false, message: 'Error interno del servidor', error}`. -/
def getImagenes (db : List ImagenRow) : ListResponse :=
  match obtenerImagenes db with
  | .ok imagenes =>
    { status := 200, success := true,
      message := "Se encontraron " ++ toString imagenes.length ++ " imagenes",
      data := imagenes, error := none }
  | .error msg =>
    { status := 500, success := false,
      message := "Error interno del servidor", data := [], error := some msg }

/-- `crearCliente({nombre, email, password})`, the clients model
(`fotos.routes.js` file, lines 48–63): inserts the row (the database
returns `insertId`) and returns the object
`{insertId, id, nombre, email}` — modelled as the ordered field list of
the returned JS object. -/
def crearCliente (nombre email _password : String) (insertId : Int) :
    List (String × JSVal) :=
  [("insertId", .num insertId), ("id", .num insertId),
   ("nombre", .str nombre), ("email", .str email)]

/-- The session invariant (spec §3): `token` and `user` are both present
(non-null) or both absent (null). -/
def SessionInv (e : Estado) : Prop :=
  e.token.isNull = e.usuario.isNull

/-- The spec's precondition on `saveSession`'s first argument (§4.1):
a non-empty token string. -/
def validToken : JSVal → Bool
  | .str s => s != ""
  | _ => false

/-- The spec's precondition on `saveSession`'s second argument (§4.1):
a user object carrying `id`, `nombre` and `email`. -/
def validUsuario : JSVal → Bool
  | .obj l => (l.lookup "id").isSome && (l.lookup "nombre").isSome
              && (l.lookup "email").isSome
  | _ => false

/-- The response of the model `obtenerImagenes` is an error for every
table state: shorthand for the 500 response `getImagenes` then sends. -/
def respuesta500 : ListResponse :=
  { status := 500, success := false, message := "Error interno del servidor",
    data := [],
    error := some "ER_BAD_FIELD_ERROR: Unknown column nombre in order clause" }

/-- Helper: JS string coercion is the identity on strings. -/
theorem jsToString_str (s : String) : (JSVal.str s).jsToString = s := by
  simp [JSVal.jsToString]

/-- C1: the session invariant — token and user both present (non-null)
or both absent — holds initially and is preserved by `guardarSesion`
(under the spec's argument precondition), by `cargarSesionGuardada`
against an arbitrary persisted store, and by `cerrarSesion`; and when at
most one of the two persisted keys is present, restoring on the fresh
state leaves the session absent. -/
theorem sesion_invariant_preserved :
    SessionInv estadoInicial
    ∧ (∀ (token usuario : JSVal) (e : Estado) (st : Store),
        validToken token = true → validUsuario usuario = true →
        SessionInv (guardarSesion token usuario e st).1)
    ∧ (∀ (e : Estado) (st : Store), SessionInv e →
        SessionInv (cargarSesionGuardada e st).1)
    ∧ (∀ (e : Estado) (st : Store), SessionInv (cerrarSesion e st).1)
    ∧ (∀ st : Store, st.token = none ∨ st.user = none →
        (cargarSesionGuardada estadoInicial st).1.token = .null
        ∧ (cargarSesionGuardada estadoInicial st).1.usuario = .null) := by
  refine ⟨rfl, ?_, ?_, ?_, ?_⟩
  · intro token usuario e st ht hu
    cases token <;> simp [validToken] at ht
    cases usuario <;> simp [validUsuario] at hu
    rfl
  · intro e st h
    rcases htok : st.token with _ | t
    · simpa [cargarSesionGuardada, htok] using h
    rcases huser : st.user with _ | u
    · simpa [cargarSesionGuardada, htok, huser] using h
    rcases u with v | raw
    · by_cases ht : t = ""
      · subst ht
        simpa [cargarSesionGuardada, htok, huser, StoredStr.truthy] using h
      · cases v <;>
          simp [cargarSesionGuardada, htok, huser, StoredStr.truthy, StoredStr.parse,
                bne_iff_ne, ht, SessionInv, cerrarSesion, JSVal.isNull]
    · by_cases ht : t = ""
      · subst ht
        simpa [cargarSesionGuardada, htok, huser, StoredStr.truthy] using h
      · by_cases hr : raw = ""
        · subst hr
          simpa [cargarSesionGuardada, htok, huser, StoredStr.truthy, bne_iff_ne, ht] using h
        · simp [cargarSesionGuardada, htok, huser, StoredStr.truthy, StoredStr.parse,
                bne_iff_ne, ht, hr, SessionInv, cerrarSesion, JSVal.isNull]
  · intro e st
    exact rfl
  · intro st h
    have hid : cargarSesionGuardada estadoInicial st = (estadoInicial, st) := by
      rcases htok : st.token with _ | t
      · simp [cargarSesionGuardada, htok]
      rcases huser : st.user with _ | u
      · simp [cargarSesionGuardada, htok, huser]
      rcases h with h | h
      · rw [htok] at h; exact absurd h (by simp)
      · rw [huser] at h; exact absurd h (by simp)
    rw [hid]
    exact ⟨rfl, rfl⟩

/-- C1 witness: the preservation facts instantiated at concrete
arguments. -/
theorem sesion_invariant_preserved_witness :
    validToken (.str "abc") = true
    ∧ validUsuario (.obj [("id", .num 1), ("nombre", .str "Ana"),
        ("email", .str "a@x.com")]) = true
    ∧ SessionInv estadoInicial
    ∧ SessionInv (guardarSesion (.str "abc")
        (.obj [("id", .num 1), ("nombre", .str "Ana"), ("email", .str "a@x.com")])
        estadoInicial emptyStore).1
    ∧ SessionInv (cargarSesionGuardada estadoInicial emptyStore).1
    ∧ (cargarSesionGuardada estadoInicial
        { token := some "t", user := none, carrito := none }).1.token = .null := by
  refine ⟨rfl, rfl, rfl, ?_, ?_, ?_⟩
  · exact sesion_invariant_preserved.2.1 _ _ _ _ rfl rfl
  · exact sesion_invariant_preserved.2.2.1 _ _ rfl
  · exact (sesion_invariant_preserved.2.2.2.2 _ (Or.inr rfl)).1

/-- C2: saving a valid session — non-empty token string, user object
with id/nombre/email — and then restoring on a fresh in-memory state
from the resulting store yields the same token and the same user. -/
theorem sesion_roundtrip (s : String) (l : List (String × JSVal))
    (e : Estado) (st : Store)
    (hs : s ≠ "") (_hu : validUsuario (.obj l) = true) :
    (cargarSesionGuardada estadoInicial
        (guardarSesion (.str s) (.obj l) e st).2.1).1.token = .str s
    ∧ (cargarSesionGuardada estadoInicial
        (guardarSesion (.str s) (.obj l) e st).2.1).1.usuario = .obj l := by
  simp [guardarSesion, cargarSesionGuardada, StoredStr.stringify, StoredStr.truthy,
        StoredStr.parse, JSVal.isNull, jsToString_str, bne_iff_ne, hs]

/-- C2 witness: the round trip at a concrete session. -/
theorem sesion_roundtrip_witness :
    ("abc" : String) ≠ ""
    ∧ validUsuario (.obj [("id", .num 1), ("nombre", .str "Ana"),
        ("email", .str "a@x.com")]) = true
    ∧ (cargarSesionGuardada estadoInicial
        (guardarSesion (.str "abc")
          (.obj [("id", .num 1), ("nombre", .str "Ana"), ("email", .str "a@x.com")])
          estadoInicial emptyStore).2.1).1.token = .str "abc"
    ∧ (cargarSesionGuardada estadoInicial
        (guardarSesion (.str "abc")
          (.obj [("id", .num 1), ("nombre", .str "Ana"), ("email", .str "a@x.com")])
          estadoInicial emptyStore).2.1).1.usuario
      = .obj [("id", .num 1), ("nombre", .str "Ana"), ("email", .str "a@x.com")] := by
  refine ⟨by decide, rfl, ?_, ?_⟩
  · exact (sesion_roundtrip "abc"
      [("id", .num 1), ("nombre", .str "Ana"), ("email", .str "a@x.com")]
      estadoInicial emptyStore (by decide) rfl).1
  · exact (sesion_roundtrip "abc"
      [("id", .num 1), ("nombre", .str "Ana"), ("email", .str "a@x.com")]
      estadoInicial emptyStore (by decide) rfl).2

/-- C3 counterexample: a persisted token key holding the empty string
(falsy), or a persisted user key holding the empty — hence unparseable —
string, makes `cargarSesionGuardada` skip the restore branch entirely,
so the persisted keys are NOT removed, contradicting the claim. -/
theorem restore_corrupt_claim_counterexample :
    (cargarSesionGuardada estadoInicial
        { token := some "", user := some (.notJson "x"), carrito := none }).2.token ≠ none
    ∧ (cargarSesionGuardada estadoInicial
        { token := some "t", user := some (.notJson ""), carrito := none }).2.user ≠ none := by
  constructor
  · simp [cargarSesionGuardada, StoredStr.truthy]
  · simp [cargarSesionGuardada, StoredStr.truthy]

/-- C3 (amended): when the token key holds a NON-EMPTY string and the
user key holds a NON-EMPTY string that is not valid JSON, restoring
ends in the absent session, the empty cart, and all three keys removed
(the parse failure is caught and handled by `cerrarSesion`; no error
surfaces — the model restore is total and alerts nothing). -/
theorem restore_corrupt_clears_all (e : Estado) (tok raw : String)
    (c : Option StoredStr) (htok : tok ≠ "") (hraw : raw ≠ "") :
    cargarSesionGuardada e
        { token := some tok, user := some (.notJson raw), carrito := c }
      = ({ token := .null, usuario := .null, carrito := { items := [], total := 0 } },
         { token := none, user := none, carrito := none }) := by
  simp [cargarSesionGuardada, StoredStr.truthy, StoredStr.parse, cerrarSesion,
        bne_iff_ne, htok, hraw]

/-- C3 witness: a concrete corrupt store is fully cleared. -/
theorem restore_corrupt_clears_all_witness :
    ("t" : String) ≠ "" ∧ ("oops" : String) ≠ ""
    ∧ cargarSesionGuardada estadoInicial
        { token := some "t", user := some (.notJson "oops"),
          carrito := some (.jsonOf (.arr [])) }
      = ({ token := .null, usuario := .null, carrito := { items := [], total := 0 } },
         { token := none, user := none, carrito := none }) :=
  ⟨by decide, by decide,
   restore_corrupt_clears_all estadoInicial "t" "oops" _ (by decide) (by decide)⟩

/-- C4 counterexample: on a 401 whose body carries a PRESENT but empty
`message`, the code alerts the generic fallback, not the provided
message, while the claim says the fallback is used only when the message
is absent. -/
theorem login_message_claim_counterexample :
    iniciarSesion estadoInicial emptyStore
        (.resp false (.json (.obj [("message", .str "")])))
      = (estadoInicial, emptyStore, some (.str "Error al iniciar sesión"))
    ∧ ("Error al iniciar sesión" : String) ≠ "" :=
  ⟨rfl, by decide⟩

/-- C4 (amended): on a non-2xx response with a JSON body other than
null, the client alerts the body's `message` when that value is truthy
and the generic fallback otherwise (in particular when it is absent),
and leaves the in-memory state and the store untouched. -/
theorem login_failure_alert_and_state (e : Estado) (st : Store) (datos : JSVal)
    (h : datos.isNull = false) :
    iniciarSesion e st (.resp false (.json datos))
      = (e, st,
         some (if ((datos.getField "message").getD .null).truthy
               then (datos.getField "message").getD .null
               else .str "Error al iniciar sesión")) := by
  simp [iniciarSesion, h]

/-- C4 witness: invalid credentials with body message "bad credentials"
alert exactly that text and change nothing (spec Scenario C). -/
theorem login_failure_alert_and_state_witness :
    (JSVal.obj [("message", .str "bad credentials")]).isNull = false
    ∧ iniciarSesion estadoInicial emptyStore
        (.resp false (.json (.obj [("message", .str "bad credentials")])))
      = (estadoInicial, emptyStore, some (.str "bad credentials")) := by
  refine ⟨rfl, ?_⟩
  rw [login_failure_alert_and_state estadoInicial emptyStore
    (.obj [("message", .str "bad credentials")]) rfl]
  rfl

/-- Helper: each cart mutation recomputes the total from scratch, so the
total/items consistency is preserved along any operation sequence. -/
theorem applyCartOps_consistent (ops : List CartOp) (c : Carrito)
    (h : c.total = cartTotal c.items) :
    (applyCartOps ops c).total = cartTotal (applyCartOps ops c).items := by
  induction ops generalizing c with
  | nil => exact h
  | cons op rest ih =>
    cases op with
    | add item q => exact ih (addItem c item q) rfl
    | remove i => exact ih (removeItem c i) rfl

/-- C5: after any sequence of `addItem`/`removeItem` calls starting from
the empty cart, `total` equals the sum of `precio × cantidad` over the
lines; `addItem` with an itemId already present merges into the existing
line; adding itemId 1 (price 10) with quantity 2 and then quantity 3
yields one line with quantity 5 and total 50. -/
theorem cart_total_invariant_and_merge :
    (∀ ops : List CartOp,
      (applyCartOps ops { items := [], total := 0 }).total
        = cartTotal (applyCartOps ops { items := [], total := 0 }).items)
    ∧ (addItem (addItem { items := [], total := 0 } ⟨1, "X", 10⟩ 2) ⟨1, "X", 10⟩ 3).items
        = [{ id := 1, nombre := "X", precio := 10, cantidad := 5 }]
    ∧ (addItem (addItem { items := [], total := 0 } ⟨1, "X", 10⟩ 2) ⟨1, "X", 10⟩ 3).total
        = 50 :=
  ⟨fun ops => applyCartOps_consistent ops _ rfl, by decide, by decide⟩

/-- C6 counterexample: the key `cerrarSesion` removes for the cart is
the literal `"carrito"`, which is not among the key names the spec
assigns to the Persistence Bridge (`token`, `user`, `cart`). -/
theorem bridge_keys_counterexample :
    "carrito" ∈ cerrarSesionKeys ∧ "carrito" ∉ specBridgeKeys := by
  decide

/-- C6 (amended): the code addresses exactly the three fixed keys
`"token"`, `"user"` and `"carrito"`: every session operation reads,
writes or removes only these, and `cerrarSesion` removes all three. -/
theorem bridge_keys_exact :
    guardarSesionKeys ⊆ codeBridgeKeys
    ∧ cargarSesionGuardadaKeys ⊆ codeBridgeKeys
    ∧ cerrarSesionKeys = codeBridgeKeys
    ∧ codeBridgeKeys = ["token", "user", "carrito"] := by
  refine ⟨?_, ?_, rfl, rfl⟩ <;> decide

/-- C7: the listing query orders by the column `nombre`, which the
`imagenes` table does not define (`initdb.js` declares `titulo`), so the
model query errors on every table state and the controller answers 500
`{success: false}` — never the claimed 200 with the active images. -/
theorem getImagenes_unknown_column_500 :
    ∀ db : List ImagenRow,
      obtenerImagenes db
        = .error "ER_BAD_FIELD_ERROR: Unknown column nombre in order clause"
      ∧ getImagenes db = respuesta500
      ∧ obtenerImagenesOrderBy ∉ imagenesTableCols := by
  intro db
  exact ⟨rfl, rfl, by decide⟩

/-- C8: `guardarSesion` checks nothing: for arbitrary arguments — empty
token, null or field-incomplete user included — it overwrites the
in-memory token and user and writes both persisted keys with (the
storage coercions of) the given values, leaving the cart alone. -/
theorem guardarSesion_unconditional :
    ∀ (token usuario : JSVal) (e : Estado) (st : Store),
      (guardarSesion token usuario e st).1.token = token
      ∧ (guardarSesion token usuario e st).1.usuario = usuario
      ∧ (guardarSesion token usuario e st).1.carrito = e.carrito
      ∧ (guardarSesion token usuario e st).2.1.token = some token.jsToString
      ∧ (guardarSesion token usuario e st).2.1.user = some (StoredStr.stringify usuario)
      ∧ (guardarSesion token usuario e st).2.1.carrito = st.carrito := by
  intro token usuario e st
  exact ⟨rfl, rfl, rfl, rfl, rfl, rfl⟩

/-- C9: when the response body is not valid JSON — whatever the HTTP
status, 2xx included — both `iniciarSesion` and `registrarUsuario`
alert the generic connectivity message, which differs from either
credential-error fallback, and leave the state and the store unchanged. -/
theorem nonjson_body_connectivity_alert :
    ∀ (e : Estado) (st : Store) (ok : Bool),
      iniciarSesion e st (.resp ok .notJson)
        = (e, st, some (.str "No se pudo conectar con el servidor"))
      ∧ registrarUsuario e st (.resp ok .notJson)
        = (e, st, some (.str "No se pudo conectar con el servidor"))
      ∧ ("No se pudo conectar con el servidor" : String) ≠ "Error al iniciar sesión"
      ∧ ("No se pudo conectar con el servidor" : String) ≠ "Error al registrarse" := by
  intro e st ok
  exact ⟨rfl, rfl, by decide, by decide⟩

/-- C10: for every input, `crearCliente` returns an object whose fields
are exactly `insertId`, `id`, `nombre`, `email` — the password never
appears in the return value. -/
theorem crearCliente_fields :
    ∀ (nombre email password : String) (insertId : Int),
      (crearCliente nombre email password insertId).map Prod.fst
        = ["insertId", "id", "nombre", "email"]
      ∧ (crearCliente nombre email password insertId).lookup "password" = none := by
  intro nombre email password insertId
  exact ⟨rfl, rfl⟩


